import Mathlib

/-!
Verification development for the corevsknots repository health analyzer.

The Python sources are shallowly embedded as Lean definitions:

* strings are `List Char` (`Str`); Python `str.lower()` is ASCII lower-casing,
  Python's substring operator `in` is `containsSub`;
* Python floats are modelled by exact rationals `ℚ`; Python's banker's
  rounding `round(x, n)` is `pyRound n`;
* Python dicts holding metric keys are structures whose possibly-absent keys
  are `Option` fields; a function returning a possibly-empty dict returns an
  `Option` of the corresponding structure (`none` = empty, falsy dict);
* `sorted`/`list.sort` (stable sorts) are `List.insertionSort`, which is a
  stable structural sort.
-/

namespace CoreVsKnots

/-- Strings are modelled as lists of characters. -/
abbrev Str := List Char

/-- The single-quote character (written via its code point to keep source plain). -/
def apostr : Char := Char.ofNat 39

/-- ASCII lower-casing of a string, modelling Python `str.lower()` on the
ASCII texts that occur here. -/
def lowerStr (s : Str) : Str := s.map Char.toLower

/-- Python's substring test `p in l`. -/
def containsSub (p : Str) : Str → Bool
  | [] => p.isPrefixOf []
  | c :: t => p.isPrefixOf (c :: t) || containsSub p t

/-- Adjacent-pair occurrence: `containsPair a b l` holds when `l` contains the
character `a` immediately followed by `b`. -/
def containsPair (a b : Char) : Str → Bool
  | x :: y :: t => (x = a && y = b) || containsPair a b (y :: t)
  | _ => false

/-! ## Fork-origin classifier (src/corevsknots/metrics/contributor.py) -/

/-- Pattern "Merge bitcoin/bitcoin#" from `is_core_merge_commit`. -/
def corePattern1 : Str := ("Merge bitcoin/bitcoin#").data

/-- Pattern "Merge remote-tracking branch 'upstream/master'". -/
def corePattern2 : Str :=
  ("Merge remote-tracking branch ").data ++ [apostr] ++ ("upstream/master").data ++ [apostr]

/-- Pattern "Merge remote-tracking branch 'upstream/main'". -/
def corePattern3 : Str :=
  ("Merge remote-tracking branch ").data ++ [apostr] ++ ("upstream/main").data ++ [apostr]

/-- Pattern "Merge pull request #\d+ from bitcoin/bitcoin" — note that the
source keeps this as a plain string (not a regex), so the two characters
backslash and `d+` are literal. -/
def corePattern4 : Str := ("Merge pull request #\\d+ from bitcoin/bitcoin").data

/-- Pattern "Sync with bitcoin/bitcoin". -/
def corePattern5 : Str := ("Sync with bitcoin/bitcoin").data

/-- The `core_merge_patterns` list of `is_core_merge_commit`. -/
def core_merge_patterns : List Str :=
  [corePattern1, corePattern2, corePattern3, corePattern4, corePattern5]

/-- Lower-cased head of the regex `Merge branch '.*' of
https://github.com/bitcoin/bitcoin into ` (the part before `.*`). -/
def branchHeadLower : Str := ("merge branch ").data ++ [apostr]

/-- Lower-cased tail of the same regex (the part after `.*`). -/
def branchTailLower : Str :=
  [apostr] ++ (" of https://github.com/bitcoin/bitcoin into ").data

/-- Scans for an occurrence of `branchTailLower` reachable from the current
position through non-newline characters only; models the `.*` of the regex
(`.` does not match a newline in Python's `re`). -/
def branchMidScan : Str → Bool
  | [] => branchTailLower.isPrefixOf []
  | c :: t => branchTailLower.isPrefixOf (c :: t) || (c ≠ '\n' && branchMidScan t)

/-- Model of `re.match(r"Merge branch '.*' of https://github.com/bitcoin/bitcoin
into ", msg, re.IGNORECASE)` viewed as a boolean: a match anchored at the start
of the lower-cased message. -/
def branchRegexMatch (commit_message : Str) : Bool :=
  branchHeadLower.isPrefixOf (lowerStr commit_message) &&
    branchMidScan ((lowerStr commit_message).drop branchHeadLower.length)

/-- Model of `is_core_merge_commit` from src/corevsknots/metrics/contributor.py:
case-insensitive substring test against each pattern, then the regex
heuristic. -/
def is_core_merge_commit (commit_message : Str) : Bool :=
  core_merge_patterns.any (fun p => containsSub (lowerStr p) (lowerStr commit_message)) ||
    branchRegexMatch commit_message

/-- Classification outcome for a fork commit. -/
inductive ClassificationLabel where
  | ORIGINAL : ClassificationLabel
  | UPSTREAM_MERGED : ClassificationLabel
deriving DecidableEq

/-- The fork-commit classification performed by `calculate_commit_metrics`
(src/corevsknots/metrics/commits.py, lines 58–67) and by
`calculate_contributor_metrics` (contributor.py, lines 105–113): a commit is
from upstream if its SHA is in the reference set, else if its message matches
`is_core_merge_commit`; otherwise it is original. -/
def classify_fork_commit (core_commit_shas : List Str) (sha : Option Str)
    (commit_message : Str) : ClassificationLabel :=
  if (match sha with
      | some s => core_commit_shas.contains s
      | none => false) then
    ClassificationLabel.UPSTREAM_MERGED
  else if is_core_merge_commit commit_message then
    ClassificationLabel.UPSTREAM_MERGED
  else
    ClassificationLabel.ORIGINAL

/-! ## Python rounding -/

/-- Python 3 `round` to an integer: round-half-to-even on the exact rational
value. -/
def pyRoundInt (x : ℚ) : ℤ :=
  let f := ⌊x⌋
  if x - f < 1/2 then f
  else if 1/2 < x - f then f + 1
  else if f % 2 = 0 then f else f + 1

/-- Python 3 `round(x, n)`: round-half-to-even at `n` decimal digits. -/
def pyRound (n : ℕ) (x : ℚ) : ℚ := (pyRoundInt (x * 10 ^ n) : ℚ) / 10 ^ n

/-! ## Gini coefficient (contributor.py, lines 198–225) -/

/-- The loop of `calculate_gini_coefficient`: Σ (i+1)·vᵢ over positions,
starting from position `i`. -/
def weightedPositionSum : ℕ → List ℕ → ℚ
  | _, [] => 0
  | i, v :: rest => ((i + 1 : ℕ) : ℚ) * (v : ℚ) + weightedPositionSum (i + 1) rest

/-- Model of `calculate_gini_coefficient` from contributor.py: sorts ascending, forms
the position-weighted sum, applies the Gini formula and clamps at 0. -/
def calculate_gini_coefficient (values : List ℕ) : ℚ :=
  if values = [] ∨ values.sum = 0 then 0
  else
    let sortedValues := List.insertionSort (· ≤ ·) values
    let n : ℚ := (values.length : ℚ)
    let total : ℚ := (values.sum : ℚ)
    let gini : ℚ := weightedPositionSum 0 sortedValues
    max 0 (2 * gini / (n * total) - 1 - 1 / n)

/-! ## Bus factor (contributor.py, lines 228–261) -/

/-- The accumulation loop of `calculate_bus_factor`: walks the distribution,
adding counts, and stops as soon as the running sum reaches the threshold. -/
def bus_factor_walk {α : Type u} (threshold : ℚ) : ℕ → ℕ → List (α × ℕ) → ℕ
  | _, bus_factor, [] => bus_factor
  | cumulative, bus_factor, (_, commits) :: rest =>
    if threshold ≤ ((cumulative + commits : ℕ) : ℚ) then bus_factor + 1
    else bus_factor_walk threshold (cumulative + commits) (bus_factor + 1) rest

/-- Model of `calculate_bus_factor` from contributor.py: 0 on an empty distribution or
zero total, else the number of entries (in list order) needed to reach 80% of
the total. -/
def calculate_bus_factor {α : Type u} (contributors_by_commits : List (α × ℕ)) : ℕ :=
  if contributors_by_commits.isEmpty then 0
  else
    let total_commits := (contributors_by_commits.map Prod.snd).sum
    if total_commits = 0 then 0
    else bus_factor_walk ((4 : ℚ) / 5 * (total_commits : ℚ)) 0 0 contributors_by_commits

/-! ## Substring lemmas -/

theorem containsSub_correct (p l : Str) : containsSub p l = true ↔ p <:+: l := by
  induction l with
  | nil =>
    simp [containsSub, List.isPrefixOf_iff_prefix, List.infix_nil, List.prefix_nil]
  | cons c t ih =>
    simp [containsSub, List.isPrefixOf_iff_prefix, ih, List.infix_cons_iff]

theorem not_containsSub_of_not_mem {p l : Str} {ch : Char} (hp : ch ∈ p) (hl : ch ∉ l) :
    containsSub p l = false := by
  by_contra h
  exact hl (((containsSub_correct p l).1 (by simpa using h)).subset hp)

theorem not_isPrefixOf_of_not_mem {p l : Str} {ch : Char} (hp : ch ∈ p) (hl : ch ∉ l) :
    p.isPrefixOf l = false := by
  by_contra h
  have hpre : p <+: l := List.isPrefixOf_iff_prefix.1 (by simpa using h)
  exact hl (hpre.subset hp)

theorem containsPair_append_left {a b : Char} (u v : Str) (h : containsPair a b u = true) :
    containsPair a b (u ++ v) = true := by
  induction u with
  | nil => simp [containsPair] at h
  | cons x u' ih =>
    cases u' with
    | nil => simp [containsPair] at h
    | cons y w =>
      rw [containsPair] at h
      rcases Bool.or_eq_true_iff.1 h with h1 | h2
      · rw [List.cons_append, List.cons_append, containsPair]
        exact Bool.or_eq_true_iff.2 (Or.inl h1)
      · rw [List.cons_append, List.cons_append, containsPair]
        refine Bool.or_eq_true_iff.2 (Or.inr ?_)
        simpa using ih h2

theorem containsPair_append_right {a b : Char} (u v : Str) (h : containsPair a b v = true) :
    containsPair a b (u ++ v) = true := by
  induction u with
  | nil => simpa using h
  | cons x u' ih =>
    cases h' : u' ++ v with
    | nil =>
      rcases List.append_eq_nil.1 h' with ⟨_, rfl⟩
      simp [containsPair] at h
    | cons z w =>
      rw [List.cons_append, h', containsPair]
      refine Bool.or_eq_true_iff.2 (Or.inr ?_)
      rw [← h']
      exact ih

theorem containsPair_of_sub {a b : Char} {p l : Str} (hinf : p <:+: l)
    (h : containsPair a b p = true) : containsPair a b l = true := by
  obtain ⟨s, t, rfl⟩ := hinf
  rw [List.append_assoc]
  exact containsPair_append_right s (p ++ t) (containsPair_append_left p t h)

theorem not_containsSub_of_pair {a b : Char} {p l : Str}
    (hp : containsPair a b p = true) (hl : containsPair a b l = false) :
    containsSub p l = false := by
  by_contra h
  have hinf : p <:+: l := (containsSub_correct p l).1 (by simpa using h)
  rw [containsPair_of_sub hinf hp] at hl
  exact Bool.true_eq_false.mp hl

/-! ## Claim C1: the Gini coefficient -/

/-- Claim C1: for every list of contribution counts, `calculate_gini_coefficient`
returns 0 on an empty list or zero total, and otherwise `max 0 (2G/(nT) − 1 − 1/n)`
where `G = Σ (i+1)·wᵢ` over any ascending-sorted rearrangement `w` of the values;
in particular `[10,10,10,10] ↦ 0` and `[40,0,0,0] ↦ 0.75`. -/
theorem gini_coefficient_spec :
    (∀ values : List ℕ, values = [] ∨ values.sum = 0 → calculate_gini_coefficient values = 0) ∧
    (∀ values w : List ℕ, ¬(values = [] ∨ values.sum = 0) →
      List.Sorted (· ≤ ·) w → values.Perm w →
      calculate_gini_coefficient values =
        max 0 (2 * weightedPositionSum 0 w / ((values.length : ℚ) * (values.sum : ℚ))
          - 1 - 1 / (values.length : ℚ))) ∧
    calculate_gini_coefficient [10, 10, 10, 10] = 0 ∧
    calculate_gini_coefficient [40, 0, 0, 0] = 3 / 4 := by
  refine ⟨?_, ?_, ?_, ?_⟩
  · intro values h
    simp only [calculate_gini_coefficient, if_pos h]
  · intro values w h hs hperm
    have hsorted : List.insertionSort (· ≤ ·) values = w :=
      List.eq_of_perm_of_sorted ((List.perm_insertionSort _ values).trans hperm)
        (List.sorted_insertionSort _ values) hs
    simp only [calculate_gini_coefficient, if_neg h, hsorted]
  · norm_num [calculate_gini_coefficient, weightedPositionSum, List.insertionSort,
      List.orderedInsert]
  · norm_num [calculate_gini_coefficient, weightedPositionSum, List.insertionSort,
      List.orderedInsert]
    decide

/-- Witness for C1 at the concrete input `[40,0,0,0]` (sorted ascending is
`[0,0,0,40]`). -/
theorem gini_coefficient_spec_witness :
    calculate_gini_coefficient [40, 0, 0, 0] =
      max 0 (2 * weightedPositionSum 0 [0, 0, 0, 40] /
        ((([40, 0, 0, 0] : List ℕ).length : ℚ) * (([40, 0, 0, 0] : List ℕ).sum : ℚ))
        - 1 - 1 / (([40, 0, 0, 0] : List ℕ).length : ℚ)) :=
  gini_coefficient_spec.2.1 [40, 0, 0, 0] [0, 0, 0, 40] (by decide) (by decide) (by decide)

/-! ## Claim C2: the bus factor -/

theorem bus_factor_walk_spec {α : Type} (th : ℚ) :
    ∀ (l : List (α × ℕ)) (cum cnt : ℕ),
      (cum : ℚ) < th → th ≤ (cum : ℚ) + ((l.map Prod.snd).sum : ℚ) →
      ∃ j, 1 ≤ j ∧ j ≤ l.length ∧ bus_factor_walk th cum cnt l = cnt + j ∧
        th ≤ (cum : ℚ) + (((l.take j).map Prod.snd).sum : ℚ) ∧
        (cum : ℚ) + (((l.take (j - 1)).map Prod.snd).sum : ℚ) < th := by
  intro l
  induction l with
  | nil =>
    intro cum cnt h1 h2
    exfalso
    simp only [List.map_nil, List.sum_nil, Nat.cast_zero, add_zero] at h2
    linarith
  | cons hd tl ih =>
    intro cum cnt h1 h2
    obtain ⟨a, c⟩ := hd
    by_cases hth : th ≤ ((cum + c : ℕ) : ℚ)
    · refine ⟨1, le_refl 1, by simp, ?_, ?_, ?_⟩
      · rw [bus_factor_walk, if_pos hth]
      · simpa using hth
      · simpa using h1
    · have h2' : th ≤ ((cum + c : ℕ) : ℚ) + ((tl.map Prod.snd).sum : ℚ) := by
        simp only [List.map_cons, List.sum_cons, Nat.cast_add] at h2 ⊢
        push_cast at h2 ⊢
        linarith
      obtain ⟨j, hj1, hjlen, heq, hge, hlt⟩ := ih (cum + c) (cnt + 1) (lt_of_not_le hth) h2'
      obtain ⟨j', rfl⟩ : ∃ j', j = j' + 1 := ⟨j - 1, by omega⟩
      refine ⟨j' + 1 + 1, by omega, by simp; omega, ?_, ?_, ?_⟩
      · rw [bus_factor_walk, if_neg hth, heq]
        omega
      · rw [List.take_succ_cons]
        simp only [List.map_cons, List.sum_cons, Nat.cast_add]
        push_cast at hge ⊢
        linarith
      · have : j' + 1 + 1 - 1 = j' + 1 := by omega
        rw [this, List.take_succ_cons]
        simp only [Nat.add_sub_cancel] at hlt
        simp only [List.map_cons, List.sum_cons, Nat.cast_add]
        push_cast at hlt ⊢
        linarith

/-- Claim C2: `calculate_bus_factor` returns 0 exactly on an empty or zero-total
distribution; otherwise it returns the least `k ≥ 1` whose prefix sum reaches
80% of the total: the first `k` counts sum to `≥ 0.8·T` while the first `k−1`
sum to `< 0.8·T` (when `k > 1`); and on `[(A,50),(B,30),(C,20)]` it returns 2. -/
theorem bus_factor_spec :
    (∀ (α : Type) (l : List (α × ℕ)), l = [] ∨ (l.map Prod.snd).sum = 0 →
      calculate_bus_factor l = 0) ∧
    (∀ (α : Type) (l : List (α × ℕ)), l ≠ [] → (l.map Prod.snd).sum ≠ 0 →
      1 ≤ calculate_bus_factor l ∧
      (4 : ℚ) / 5 * ((l.map Prod.snd).sum : ℚ) ≤
        (((l.take (calculate_bus_factor l)).map Prod.snd).sum : ℚ) ∧
      (1 < calculate_bus_factor l →
        (((l.take (calculate_bus_factor l - 1)).map Prod.snd).sum : ℚ) <
          4 / 5 * ((l.map Prod.snd).sum : ℚ))) ∧
    calculate_bus_factor [(('A' : Char), 50), ('B', 30), ('C', 20)] = 2 := by
  refine ⟨?_, ?_, ?_⟩
  · intro α l h
    rcases h with rfl | hsum
    · simp [calculate_bus_factor]
    · by_cases hnil : l = []
      · simp [hnil, calculate_bus_factor]
      · simp [calculate_bus_factor, List.isEmpty_iff, hnil, hsum]
  · intro α l hne hsum
    set T := (l.map Prod.snd).sum with hT
    have hTpos : 0 < T := Nat.pos_of_ne_zero hsum
    have hth0 : (0 : ℚ) < 4 / 5 * (T : ℚ) := by
      have : (0 : ℚ) < (T : ℚ) := by exact_mod_cast hTpos
      linarith
    have hreach : (4 : ℚ) / 5 * (T : ℚ) ≤ (0 : ℚ) + ((l.map Prod.snd).sum : ℚ) := by
      rw [← hT]
      have : (0 : ℚ) < (T : ℚ) := by exact_mod_cast hTpos
      linarith
    obtain ⟨j, hj1, hjlen, heq, hge, hlt⟩ :=
      bus_factor_walk_spec ((4 : ℚ) / 5 * (T : ℚ)) l 0 0 (by simpa using hth0) hreach
    have hbf : calculate_bus_factor l = j := by
      rw [calculate_bus_factor, if_neg (by simpa [List.isEmpty_iff] using hne), ← hT,
        if_neg hsum, heq]
      omega
    rw [hbf]
    refine ⟨hj1, by simpa using hge, fun _ => by simpa using hlt⟩
  · norm_num [calculate_bus_factor, bus_factor_walk, List.isEmpty]

/-- The bus-factor example distribution from the spec scenario. -/
def busExample : List (Char × ℕ) := [('A', 50), ('B', 30), ('C', 20)]

/-- Witness for C2 at the concrete distribution `[(A,50),(B,30),(C,20)]`. -/
theorem bus_factor_spec_witness :
    1 ≤ calculate_bus_factor busExample ∧
    (4 : ℚ) / 5 * ((busExample.map Prod.snd).sum : ℚ) ≤
      (((busExample.take (calculate_bus_factor busExample)).map Prod.snd).sum : ℚ) ∧
    (1 < calculate_bus_factor busExample →
      (((busExample.take (calculate_bus_factor busExample - 1)).map Prod.snd).sum : ℚ) <
        4 / 5 * ((busExample.map Prod.snd).sum : ℚ)) :=
  bus_factor_spec.2.1 Char busExample (by decide) (by decide)

/-! ## Claim C3: classifier behaviour on reference-set hits and two messages -/

/-- The message "Merge remote-tracking branch 'upstream/master' into feature". -/
def msgUpstreamMaster : Str :=
  ("Merge remote-tracking branch ").data ++ [apostr] ++ ("upstream/master").data
    ++ [apostr] ++ (" into feature").data

/-- The message "Add new RPC command". -/
def msgAddRPC : Str := ("Add new RPC command").data

/-- Claim C3: a commit whose SHA is in the reference set is UPSTREAM_MERGED
regardless of message; an absent SHA with message
"Merge remote-tracking branch 'upstream/master' into feature" is
UPSTREAM_MERGED; an absent SHA with message "Add new RPC command" is
ORIGINAL. -/
theorem classifier_reference_and_message_cases :
    (∀ (shas : List Str) (sha : Str) (msg : Str), sha ∈ shas →
      classify_fork_commit shas (some sha) msg = ClassificationLabel.UPSTREAM_MERGED) ∧
    (∀ (shas : List Str) (sha : Str), sha ∉ shas →
      classify_fork_commit shas (some sha) msgUpstreamMaster =
        ClassificationLabel.UPSTREAM_MERGED) ∧
    (∀ (shas : List Str) (sha : Str), sha ∉ shas →
      classify_fork_commit shas (some sha) msgAddRPC = ClassificationLabel.ORIGINAL) := by
  refine ⟨?_, ?_, ?_⟩
  · intro shas sha msg hmem
    simp [classify_fork_commit, hmem]
  · intro shas sha hmem
    have hmsg : is_core_merge_commit msgUpstreamMaster = true := by decide
    simp [classify_fork_commit, hmem, hmsg]
  · intro shas sha hmem
    have hmsg : is_core_merge_commit msgAddRPC = false := by decide
    simp [classify_fork_commit, hmem, hmsg]

/-- Witness for C3: a concrete SHA in a concrete reference set is classified
UPSTREAM_MERGED, and a concrete absent SHA with the RPC message is ORIGINAL. -/
theorem classifier_reference_and_message_cases_witness :
    classify_fork_commit [("abc").data] (some ("abc").data) msgAddRPC =
      ClassificationLabel.UPSTREAM_MERGED ∧
    classify_fork_commit [("abc").data] (some ("def").data) msgAddRPC =
      ClassificationLabel.ORIGINAL :=
  ⟨classifier_reference_and_message_cases.1 [("abc").data] (("abc").data) msgAddRPC (by decide),
   classifier_reference_and_message_cases.2.2 [("abc").data] (("def").data) (by decide)⟩

/-! ## Claim C10: the `\d+` pattern is matched literally -/

theorem toLower_of_isDigit (c : Char) (h : c.isDigit = true) : c.toLower = c := by
  simp [Char.isDigit] at h
  obtain ⟨h1, h2⟩ := h
  simp [Char.toLower]
  intro h65 _
  rw [UInt32.le_def, BitVec.le_def] at h2
  simp [Char.toNat, UInt32.toNat] at h65
  simp at h2
  omega

theorem not_mem_digits {N : Str} (hN : ∀ c ∈ N, c.isDigit = true) {ch : Char}
    (hch : ch.isDigit = false) : ch ∉ N := by
  intro h
  rw [hN ch h] at hch
  exact Bool.true_eq_false.mp hch

theorem lowerStr_digits {N : Str} (hN : ∀ c ∈ N, c.isDigit = true) : lowerStr N = N := by
  have h : N.map Char.toLower = N.map id :=
    List.map_congr_left (fun a ha => toLower_of_isDigit a (hN a ha))
  simpa [lowerStr] using h

theorem containsPair_append_of_not_mem {a b : Char} {u v : Str} (ha : a ∉ u) :
    containsPair a b (u ++ v) = containsPair a b v := by
  induction u with
  | nil => simp
  | cons x u' ih =>
    have hx : x ≠ a := fun h => ha (h ▸ List.mem_cons_self x u')
    have ha' : a ∉ u' := fun h => ha (List.mem_cons_of_mem _ h)
    cases h' : u' ++ v with
    | nil =>
      rcases List.append_eq_nil.1 h' with ⟨rfl, rfl⟩
      simp [containsPair]
    | cons z w =>
      rw [List.cons_append, h', containsPair]
      simp only [decide_eq_false hx, Bool.false_and, Bool.false_or]
      rw [← h']
      exact ih ha'

/-- Lower-cased fixed head of the PR-merge message: "merge pull request #". -/
def prMsgHeadLower : Str := ("merge pull request #").data

/-- Fixed tail of the PR-merge message: " from bitcoin/bitcoin" (already
lower-case). -/
def prMsgTail : Str := (" from bitcoin/bitcoin").data

/-- The message "Merge pull request #N from bitcoin/bitcoin" for a digit
string `N`. -/
def prMergeMsg (N : Str) : Str := ("Merge pull request #").data ++ N ++ prMsgTail

theorem lowerStr_prMergeMsg {N : Str} (hN : ∀ c ∈ N, c.isDigit = true) :
    lowerStr (prMergeMsg N) = prMsgHeadLower ++ N ++ prMsgTail := by
  have hHead : (("Merge pull request #").data).map Char.toLower = prMsgHeadLower := by decide
  have hTail : prMsgTail.map Char.toLower = prMsgTail := by decide
  rw [prMergeMsg, lowerStr, List.map_append, List.map_append, hHead, hTail]
  rw [show N.map Char.toLower = N from lowerStr_digits hN]

theorem is_core_merge_commit_prMergeMsg {N : Str} (hN : ∀ c ∈ N, c.isDigit = true) :
    is_core_merge_commit (prMergeMsg N) = false := by
  have hl := lowerStr_prMergeMsg hN
  have hgen : ∀ ch : Char, ch ∉ prMsgHeadLower → ch ∉ prMsgTail → ch.isDigit = false →
      ch ∉ prMsgHeadLower ++ N ++ prMsgTail := by
    intro ch hh ht hd h
    rcases List.mem_append.1 h with h | h
    · rcases List.mem_append.1 h with h | h
      · exact hh h
      · exact not_mem_digits hN hd h
    · exact ht h
  have hap : apostr ∉ prMsgHeadLower ++ N ++ prMsgTail :=
    hgen apostr (by decide) (by decide) (by decide)
  have hbs : ('\\' : Char) ∉ prMsgHeadLower ++ N ++ prMsgTail :=
    hgen '\\' (by decide) (by decide) (by decide)
  have hy : ('y' : Char) ∉ prMsgHeadLower ++ N ++ prMsgTail :=
    hgen 'y' (by decide) (by decide) (by decide)
  have hpair : containsPair 'n' '#' (prMsgHeadLower ++ N ++ prMsgTail) = false := by
    rw [List.append_assoc, containsPair_append_of_not_mem (by decide),
      containsPair_append_of_not_mem (not_mem_digits hN (by decide))]
    decide
  have h1 : containsSub (lowerStr corePattern1) (prMsgHeadLower ++ N ++ prMsgTail) = false :=
    not_containsSub_of_pair (by decide) hpair
  have h2 : containsSub (lowerStr corePattern2) (prMsgHeadLower ++ N ++ prMsgTail) = false :=
    not_containsSub_of_not_mem (by decide : apostr ∈ lowerStr corePattern2) hap
  have h3 : containsSub (lowerStr corePattern3) (prMsgHeadLower ++ N ++ prMsgTail) = false :=
    not_containsSub_of_not_mem (by decide : apostr ∈ lowerStr corePattern3) hap
  have h4 : containsSub (lowerStr corePattern4) (prMsgHeadLower ++ N ++ prMsgTail) = false :=
    not_containsSub_of_not_mem (by decide : ('\\' : Char) ∈ lowerStr corePattern4) hbs
  have h5 : containsSub (lowerStr corePattern5) (prMsgHeadLower ++ N ++ prMsgTail) = false :=
    not_containsSub_of_not_mem (by decide : ('y' : Char) ∈ lowerStr corePattern5) hy
  have hpre : branchHeadLower.isPrefixOf (prMsgHeadLower ++ N ++ prMsgTail) = false :=
    not_isPrefixOf_of_not_mem (by decide : apostr ∈ branchHeadLower) hap
  simp only [is_core_merge_commit, core_merge_patterns, List.any_cons, List.any_nil,
    branchRegexMatch, hl, h1, h2, h3, h4, h5, hpre]
  simp

/-- Claim C10: for every digit string `N`, a fork commit with a SHA absent
from the reference set and message exactly
"Merge pull request #N from bitcoin/bitcoin" is classified ORIGINAL, because
the corresponding pattern is compared as a literal substring containing the
characters `\d+`. -/
theorem pr_merge_message_classified_original :
    ∀ (shas : List Str) (sha : Str) (N : Str), sha ∉ shas →
      (∀ c ∈ N, c.isDigit = true) →
      classify_fork_commit shas (some sha) (prMergeMsg N) =
        ClassificationLabel.ORIGINAL := by
  intro shas sha N hmem hN
  have hmsg := is_core_merge_commit_prMergeMsg hN
  simp [classify_fork_commit, hmem, hmsg]

/-- Witness for C10 at `N = "123"`. -/
theorem pr_merge_message_classified_original_witness :
    classify_fork_commit [("abc").data] (some ("def").data) (prMergeMsg (("123").data)) =
      ClassificationLabel.ORIGINAL :=
  pr_merge_message_classified_original [("abc").data] (("def").data) (("123").data)
    (by decide) (by decide)

/-! ## Data model for the metric calculators -/

/-- The string "bitcoin/bitcoin". -/
def CORE_REPO_IDENTIFIER : Str := ("bitcoin/bitcoin").data

/-- The string "bitcoinknots/bitcoin". -/
def KNOTS_REPO_IDENTIFIER : Str := ("bitcoinknots/bitcoin").data

/-- A commit record as consumed by the metric calculators. Timestamps are
modelled at day granularity (the frequency computation only uses the day
difference of the first and the last commit). A missing message key is
modelled as the empty message, matching the `.get(..., "")` default used by
the callers. -/
structure Commit where
  author_login : Option Str
  author_name : Option Str
  author_email : Option Str
  sha : Option Str
  message : Str
  committer_day : Option ℤ
deriving DecidableEq

/-- Author identity resolution: forge login first, else the free-text commit
author name (contributor.py lines 92–96). -/
def commitAuthor (c : Commit) : Option Str :=
  match c.author_login with
  | some l => some l
  | none => c.author_name

/-- Model of `Counter[...] += 1` on an insertion-ordered counter (Python dicts preserve
insertion order, which the later stable sort uses as tiebreak). -/
def counterAdd : List (Str × ℕ) → Str → List (Str × ℕ)
  | [], k => [(k, 1)]
  | (a, n) :: rest, k =>
    if a = k then (a, n + 1) :: rest else (a, n) :: counterAdd rest k

/-- Python `sorted(pairs, key=lambda item: item[1], reverse=True)`: a stable
sort, descending by count. -/
def sortDescBySnd (l : List (Str × ℕ)) : List (Str × ℕ) :=
  List.insertionSort (fun a b => b.2 ≤ a.2) l

/-- The metric keys of `calculate_contributor_metrics` that later stages read;
an `Option` field is `none` when the corresponding dict key is absent. -/
structure ContribOut where
  total_contributors : ℕ
  contributor_gini : Option ℚ
  bus_factor : Option ℕ
  knots_original_contributor_gini : Option ℚ
  knots_original_bus_factor : Option ℕ
deriving DecidableEq

/-- Model of `calculate_contributor_metrics` (contributor.py): inputs are the GitHub
contributors endpoint pairs (login, contributions), the commit list, the
repository name and the optional upstream SHA set; restricted to the output
keys that the claims and the health scorer consume. -/
def calculate_contributor_metrics (github_contributors : List (Str × ℕ))
    (commits_data : List Commit) (repo_name : Option Str)
    (core_commit_shas : Option (List Str)) : ContribOut :=
  let is_knots_repo := repo_name = some KNOTS_REPO_IDENTIFIER
  if github_contributors.length = 0 then
    { total_contributors := 0, contributor_gini := none, bus_factor := none,
      knots_original_contributor_gini := none, knots_original_bus_factor := none }
  else
    let contributors_by_gh := sortDescBySnd github_contributors
    let is_merged_from_core : Commit → Bool := fun c =>
      (match core_commit_shas, c.sha with
       | some shas, some s => shas.contains s
       | _, _ => false) || is_core_merge_commit c.message
    let knots_original_counts :=
      commits_data.foldl (fun acc c =>
        match commitAuthor c with
        | some a => if is_merged_from_core c then acc else counterAdd acc a
        | none => acc) []
    let non_knots_counts :=
      commits_data.foldl (fun acc c =>
        match commitAuthor c with
        | some a => if is_core_merge_commit c.message then acc else counterAdd acc a
        | none => acc) []
    let knots_gini_bus : Option ℚ × Option ℕ :=
      if commits_data ≠ [] ∧ is_knots_repo then
        let korig := sortDescBySnd knots_original_counts
        if korig ≠ [] then
          (some (calculate_gini_coefficient (korig.map Prod.snd)),
           some (calculate_bus_factor korig))
        else (some 0, some 0)
      else (none, none)
    let core_gini_bus : Option ℚ × Option ℕ :=
      if commits_data ≠ [] ∧ ¬is_knots_repo then
        let core_like := sortDescBySnd non_knots_counts
        if core_like ≠ [] then
          (some (calculate_gini_coefficient (core_like.map Prod.snd)),
           some (calculate_bus_factor core_like))
        else (some 0, some 0)
      else (none, none)
    let gini1 : Option ℚ :=
      if 1 < contributors_by_gh.length then
        if ¬(¬is_knots_repo ∧ core_gini_bus.1.isSome) then
          some (calculate_gini_coefficient (contributors_by_gh.map Prod.snd))
        else core_gini_bus.1
      else
        if ¬(¬is_knots_repo ∧ core_gini_bus.1.isSome) then some 1 else core_gini_bus.1
    let bus1 : Option ℕ :=
      if ¬(¬is_knots_repo ∧ core_gini_bus.2.isSome) then
        some (calculate_bus_factor contributors_by_gh)
      else core_gini_bus.2
    { total_contributors := github_contributors.length,
      contributor_gini := gini1, bus_factor := bus1,
      knots_original_contributor_gini := knots_gini_bus.1,
      knots_original_bus_factor := knots_gini_bus.2 }

/-! ## Commit metrics (commits.py) -/

/-- The five commit-frequency buckets of `calculate_commit_frequency`. -/
inductive CommitFrequency where
  | very_active : CommitFrequency
  | active : CommitFrequency
  | moderate : CommitFrequency
  | low : CommitFrequency
  | inactive : CommitFrequency
deriving DecidableEq

/-- The frequency bucket computed by `calculate_commit_frequency` (commits.py
lines 107–175): commits per day over the day span between first and the last
dated commit (inclusive). -/
def calculate_commit_frequency (commits : List Commit) : CommitFrequency :=
  let dates := commits.filterMap (·.committer_day)
  if dates = [] then CommitFrequency.inactive
  else
    let sortedDates := List.insertionSort (· ≤ ·) dates
    let first := sortedDates.headD 0
    let last := sortedDates.getLastD 0
    let delta0 : ℤ := last - first + 1
    let delta : ℤ := if delta0 ≤ 0 then 1 else delta0
    let commits_per_day : ℚ := (commits.length : ℚ) / (delta : ℚ)
    if 3 < commits_per_day then CommitFrequency.very_active
    else if 1 < commits_per_day then CommitFrequency.active
    else if 1 < commits_per_day * 7 then CommitFrequency.moderate
    else if 1 < commits_per_day * 30 then CommitFrequency.low
    else CommitFrequency.inactive

/-- Python whitespace for `str.strip()` / `str.split()`. -/
def isPySpace (c : Char) : Bool :=
  c = ' ' || c = '\t' || c = '\n' || c = '\r' || c = Char.ofNat 11 || c = Char.ofNat 12

/-- Model of `message.split("\n")[0]`. -/
def firstLine (m : Str) : Str := m.takeWhile (· ≠ '\n')

/-- Model of `str.strip()`. -/
def pyStrip (s : Str) : Str :=
  ((s.dropWhile isPySpace).reverse.dropWhile isPySpace).reverse

/-- Number of words of `str.split()` (maximal non-whitespace runs). -/
def countWordsAux : Bool → Str → ℕ
  | _, [] => 0
  | inWord, c :: t =>
    if isPySpace c then countWordsAux false t
    else (if inWord then 0 else 1) + countWordsAux true t

/-- Model of `len(first_line.split())`. -/
def countWords (s : Str) : ℕ := countWordsAux false s

/-- The `quality_score` of `analyze_commit_messages` (commits.py lines
215–259): average first-line length mapped to 0–10 plus the descriptive ratio
times 10, halved and rounded to 1 decimal. -/
def analyze_commit_messages (commits : List Commit) : ℚ :=
  if commits = [] then 0
  else
    let firsts := commits.map (fun c => pyStrip (firstLine c.message))
    let lengths := firsts.map List.length
    let descriptive := (firsts.filter (fun f => 5 < countWords f)).length
    let avg : ℚ := (lengths.sum : ℚ) / (lengths.length : ℚ)
    let length_score : ℚ := min 10 (avg / 5)
    let descriptive_score : ℚ := ((descriptive : ℚ) / (commits.length : ℚ)) * 10
    pyRound 1 ((length_score + descriptive_score) / 2)

/-- The keys of `calculate_commit_metrics` that the claims and the scorer
read. -/
structure CommitOut where
  total_commits_in_period : ℕ
  original_commits_in_period : ℕ
  commit_frequency : Option CommitFrequency
  quality_score : Option ℚ
deriving DecidableEq

/-- Model of `calculate_commit_metrics` (commits.py lines 34–104): filters the raw
commit list down to "original" commits (SHA and message filtering for the
Knots repository, message filtering for Core, no filtering otherwise), then
either returns the inactive defaults (no original commits) or computes the
frequency bucket and message quality on the filtered list. -/
def calculate_commit_metrics (raw_commits : List Commit) (repo_name : Option Str)
    (core_commit_shas : Option (List Str)) : CommitOut :=
  let is_knots_repo := repo_name = some KNOTS_REPO_IDENTIFIER
  let original_commits_for_repo :=
    if is_knots_repo ∧ core_commit_shas.isSome then
      raw_commits.filter (fun c =>
        !(match core_commit_shas, c.sha with
          | some shas, some s => shas.contains s
          | _, _ => false) && !is_core_merge_commit c.message)
    else if repo_name = some CORE_REPO_IDENTIFIER then
      raw_commits.filter (fun c => !is_core_merge_commit c.message)
    else raw_commits
  if original_commits_for_repo = [] then
    { total_commits_in_period := raw_commits.length, original_commits_in_period := 0,
      commit_frequency := some CommitFrequency.inactive, quality_score := some 0 }
  else
    { total_commits_in_period := raw_commits.length,
      original_commits_in_period := original_commits_for_repo.length,
      commit_frequency := some (calculate_commit_frequency original_commits_for_repo),
      quality_score := some (analyze_commit_messages original_commits_for_repo) }

/-! ## Pull requests (src/metrics/pull_requests.py, src/corevsknots/metrics/code_review.py) -/

/-- Pull-request state strings "open"/"closed". -/
inductive PRState where
  | opened : PRState
  | closed : PRState
deriving DecidableEq

/-- A pull request as consumed by the calculators; times are rational hours.
`merged_at = none` models a null/absent `merged_at`. -/
structure PullRequest where
  number : ℕ
  state : PRState
  author_login : Option Str
  merged : Bool
  created_at : ℚ
  merged_at : Option ℚ
  closed_at : Option ℚ
  merged_by_login : Option Str
  merge_commit_sha : Option Str
deriving DecidableEq

/-- The author/committer identities of a merge commit fetched on demand
(`get_commit_details`). -/
structure MergeCommitDetails where
  author_login : Option Str
  committer_login : Option Str
deriving DecidableEq

/-- The per-PR self-merge test inside `calculate_self_merge_metrics`
(code_review.py lines 320–336): author equals merger, or — when the merger is
unknown, a merge-commit SHA exists and the forge client is available — the
fetched merge commit's author or committer login equals the PR author.
`lookup` is the injected `get_commit_details`; `hasClient` models
`github_client and repo_name`. -/
def is_self_merge (lookup : Str → Option MergeCommitDetails) (hasClient : Bool)
    (pr : PullRequest) : Bool :=
  match pr.author_login, pr.merged_by_login with
  | some a, some m => a = m
  | some a, none =>
    match pr.merge_commit_sha with
    | some s =>
      if hasClient then
        match lookup s with
        | some cd => cd.author_login = some a || cd.committer_login = some a
        | none => false
      else false
    | none => false
  | none, _ => false

/-- Output keys of `calculate_self_merge_metrics`. -/
structure SelfMergeOut where
  self_merged_count : ℕ
  self_merged_ratio : ℚ
  self_merged_prs_analyzed : ℕ
deriving DecidableEq

/-- Model of `calculate_self_merge_metrics` (code_review.py lines 291–347): counts
merged PRs (truthy `merged_at`), counts self-merges among them, and reports
the ratio rounded to 3 decimals (0 when nothing was merged). -/
def calculate_self_merge_metrics (lookup : Str → Option MergeCommitDetails)
    (hasClient : Bool) (pull_requests : List PullRequest) : SelfMergeOut :=
  if pull_requests = [] then
    { self_merged_count := 0, self_merged_ratio := 0, self_merged_prs_analyzed := 0 }
  else
    let mergedPrs := pull_requests.filter (fun pr => pr.merged_at.isSome)
    let merged_prs_count := mergedPrs.length
    let self_merged_count := (mergedPrs.filter (is_self_merge lookup hasClient)).length
    let ratio : ℚ :=
      if 0 < merged_prs_count then (self_merged_count : ℚ) / (merged_prs_count : ℚ) else 0
    { self_merged_count := self_merged_count,
      self_merged_ratio := pyRound 3 ratio,
      self_merged_prs_analyzed := merged_prs_count }

/-- The merge-time samples of `calculate_pr_lifecycle_metrics`: hours between
creation and merge for each merged PR. -/
def pr_time_to_merge_list (prs : List PullRequest) : List ℚ :=
  prs.filterMap (fun pr =>
    if pr.merged then pr.merged_at.map (fun m => m - pr.created_at) else none)

/-- The (unrounded) `avg_time_to_merge` of `calculate_pr_lifecycle_metrics`. -/
def avg_time_to_merge_of (prs : List PullRequest) : ℚ :=
  if pr_time_to_merge_list prs = [] then 0
  else (pr_time_to_merge_list prs).sum / ((pr_time_to_merge_list prs).length : ℚ)

/-- Output keys of `calculate_pr_lifecycle_metrics`. -/
structure PrLifecycleOut where
  avg_time_to_merge : ℚ
  avg_time_to_close : ℚ
  pr_velocity_score : ℚ
deriving DecidableEq

/-- Model of `calculate_pr_lifecycle_metrics` (src/metrics/pull_requests.py lines
161–212): average merge/close times and the piecewise-linear velocity score,
rounded as in the source. -/
def calculate_pr_lifecycle_metrics (pull_requests : List PullRequest) : PrLifecycleOut :=
  if pull_requests = [] then
    { avg_time_to_merge := 0, avg_time_to_close := 0, pr_velocity_score := 0 }
  else
    let time_to_close := pull_requests.filterMap (fun pr =>
      if pr.state = PRState.closed ∧ pr.merged = false then
        pr.closed_at.map (fun cAt => cAt - pr.created_at)
      else none)
    let avg_ttm : ℚ := avg_time_to_merge_of pull_requests
    let avg_ttc : ℚ :=
      if time_to_close = [] then 0 else time_to_close.sum / (time_to_close.length : ℚ)
    let velocity : ℚ :=
      if avg_ttm ≠ 0 then
        if avg_ttm ≤ 24 then 10
        else if avg_ttm ≤ 168 then 5 + (168 - avg_ttm) / (168 - 24) * 5
        else if avg_ttm ≤ 720 then 1 + (720 - avg_ttm) / (720 - 168) * 4
        else max 0 (1 - (avg_ttm - 720) / 720)
      else 0
    { avg_time_to_merge := pyRound 2 avg_ttm,
      avg_time_to_close := pyRound 2 avg_ttc,
      pr_velocity_score := pyRound 1 velocity }

/-- Output keys of `calculate_pr_metrics` consumed by the scorer. -/
structure PROut where
  total_prs : ℕ
  merged_ratio : Option ℚ
  avg_time_to_merge : Option ℚ
  pr_velocity_score : Option ℚ
deriving DecidableEq

/-- Model of `calculate_pr_metrics` (src/metrics/pull_requests.py lines 17–55): empty
input short-circuits to just the count; otherwise the state distribution and
lifecycle keys are filled in. -/
def calculate_pr_metrics (pull_requests : List PullRequest) : PROut :=
  if pull_requests = [] then
    { total_prs := 0, merged_ratio := none, avg_time_to_merge := none,
      pr_velocity_score := none }
  else
    let merged_prs := (pull_requests.filter (·.merged)).length
    let lc := calculate_pr_lifecycle_metrics pull_requests
    { total_prs := pull_requests.length,
      merged_ratio := some (pyRound 3 ((merged_prs : ℚ) / (pull_requests.length : ℚ))),
      avg_time_to_merge := some lc.avg_time_to_merge,
      pr_velocity_score := some lc.pr_velocity_score }

/-! ## Code review (code_review.py) -/

/-- A PR review: whether the `user` key is truthy, the user's login, and
whether the review state is CHANGES_REQUESTED. -/
structure Review where
  has_user : Bool
  user_login : Option Str
  changes_requested : Bool
deriving DecidableEq

/-- Model of `pr_comments.get(n, [])` comment count for a PR number. -/
def lookupComments (pr_comments : List (ℕ × ℕ)) (n : ℕ) : ℕ :=
  (pr_comments.lookup n).getD 0

/-- The `review_thoroughness_score` of `calculate_review_thoroughness_metrics`
(code_review.py lines 105–163): the multi-reviewer ratio and the substantive
(≥3 comments or a CHANGES_REQUESTED review) ratio over the review sample, each
weighted 5, rounded to 1 decimal. -/
def calculate_review_thoroughness_metrics (pr_reviews : List (ℕ × List Review))
    (pr_comments : List (ℕ × ℕ)) : ℚ :=
  let sample := pr_reviews.length
  let multi := (pr_reviews.filter (fun pr =>
    1 < (((pr.2.filter (·.has_user)).map (·.user_login)).dedup).length)).length
  let subst := (pr_reviews.filter (fun pr =>
    3 ≤ lookupComments pr_comments pr.1 ∨ pr.2.any (·.changes_requested))).length
  let multi_ratio : ℚ := if 0 < sample then (multi : ℚ) / (sample : ℚ) else 0
  let subst_ratio : ℚ := if 0 < sample then (subst : ℚ) / (sample : ℚ) else 0
  pyRound 1 (multi_ratio * 5 + subst_ratio * 5)

/-- Output keys of `calculate_code_review_metrics` consumed by the scorer. -/
structure CodeReviewOut where
  review_thoroughness_score : Option ℚ
  self_merged_ratio : Option ℚ
  self_merged_count : Option ℕ
deriving DecidableEq

/-- Model of `calculate_code_review_metrics` (code_review.py lines 19–61): returns the
empty dict (`none`) when there are no PRs or no review data at all; otherwise
fills the thoroughness and self-merge keys. -/
def calculate_code_review_metrics (pull_requests : List PullRequest)
    (pr_reviews : List (ℕ × List Review)) (pr_comments : List (ℕ × ℕ))
    (hasClient : Bool) (lookup : Str → Option MergeCommitDetails) :
    Option CodeReviewOut :=
  if pull_requests = [] ∨ (pr_reviews = [] ∧ pr_comments = []) then none
  else
    let sm := calculate_self_merge_metrics lookup hasClient pull_requests
    some { review_thoroughness_score :=
             some (calculate_review_thoroughness_metrics pr_reviews pr_comments),
           self_merged_ratio := some sm.self_merged_ratio,
           self_merged_count := some sm.self_merged_count }

/-! ## CI/CD (ci_cd.py) -/

/-- A workflow run: whether its conclusion equals "success". -/
structure WorkflowRun where
  conclusion_success : Bool
deriving DecidableEq

/-- Model of `has_ci_configs` (ci_cd.py lines 53–67): `none` models absent git data. -/
def has_ci_configs (ci_config_files : Option (List Str)) : Bool :=
  match ci_config_files with
  | none => false
  | some files => 0 < files.length

/-- Output keys of `calculate_cicd_metrics` consumed by the scorer. -/
structure CicdOut where
  has_ci : Bool
  workflow_success_rate : Option ℚ
deriving DecidableEq

/-- Model of `calculate_cicd_metrics` (ci_cd.py lines 16–50): `has_ci` from workflow
runs or CI config files; on no CI only that key is present, otherwise the
success rate from `analyze_workflow_runs` is reported (rounded to 3 decimals;
0 for an empty run list). -/
def calculate_cicd_metrics (workflow_runs : List WorkflowRun)
    (ci_config_files : Option (List Str)) : CicdOut :=
  let has_ci := !workflow_runs.isEmpty || has_ci_configs ci_config_files
  if has_ci = false then { has_ci := false, workflow_success_rate := none }
  else
    let rate : ℚ :=
      if workflow_runs = [] then 0
      else
        pyRound 3 (((workflow_runs.filter (·.conclusion_success)).length : ℚ) /
          (workflow_runs.length : ℚ))
    { has_ci := true, workflow_success_rate := some rate }

/-! ## Issues (src/metrics/issues.py) -/

/-- An issue as consumed by the issue calculator; times are rational hours,
`label_names` the names of its labels. -/
structure Issue where
  state_open : Bool
  created_at : ℚ
  updated_at : ℚ
  closed_at : Option ℚ
  comments : ℕ
  label_names : List Str
deriving DecidableEq

/-- The `responsiveness_score` of `calculate_issue_responsiveness` (issues.py):
first-response heuristic on updated−created for commented issues, combined
with the stale-issue ratio (open and unmodified for more than 30 days relative
to `now`). -/
def calculate_issue_responsiveness (now : ℚ) (issues : List Issue) : ℚ :=
  if issues = [] then 0
  else
    let ttfr := issues.filterMap (fun i =>
      if 0 < i.comments then some (i.updated_at - i.created_at) else none)
    let stale := (issues.filter (fun i =>
      i.state_open ∧ 30 < ⌊(now - i.updated_at) / 24⌋)).length
    let open_count := (issues.filter (·.state_open)).length
    let stale_ratio : ℚ := if 0 < open_count then (stale : ℚ) / (open_count : ℚ) else 0
    let avg_fr : ℚ := if ttfr = [] then 0 else ttfr.sum / (ttfr.length : ℚ)
    let first_response_score : ℚ :=
      if avg_fr ≠ 0 then
        if avg_fr ≤ 2 then 10
        else if avg_fr ≤ 24 then 7 + (24 - avg_fr) / (24 - 2) * 3
        else if avg_fr ≤ 72 then 3 + (72 - avg_fr) / (72 - 24) * 4
        else if avg_fr ≤ 168 then (168 - avg_fr) / (168 - 72) * 3
        else 0
      else 0
    pyRound 1 (first_response_score * (7 / 10) + (10 * (1 - stale_ratio)) * (3 / 10))

/-- The `categorization_score` of `analyze_issue_labels` (issues.py): unique
label count and labelled-issue ratio mapped through a threshold table. -/
def analyze_issue_labels (issues : List Issue) : ℚ :=
  if issues = [] then 0
  else
    let with_labels := (issues.filter (fun i => i.label_names ≠ [])).length
    let all_labels := issues.foldl (fun acc i => acc ++ i.label_names) []
    let unique_labels := all_labels.dedup.length
    let label_ratio : ℚ := (with_labels : ℚ) / (issues.length : ℚ)
    let score : ℚ :=
      if 10 ≤ unique_labels ∧ (9 : ℚ) / 10 ≤ label_ratio then 10
      else if 5 ≤ unique_labels ∧ (7 : ℚ) / 10 ≤ label_ratio then 7
      else if 3 ≤ unique_labels ∧ (5 : ℚ) / 10 ≤ label_ratio then 5
      else if 0 < unique_labels then 3
      else 0
    pyRound 1 score

/-- Output keys of `calculate_issue_metrics` consumed by the scorer. -/
structure IssueOut where
  total_issues : ℕ
  responsiveness_score : Option ℚ
  categorization_score : Option ℚ
deriving DecidableEq

/-- Model of `calculate_issue_metrics` (issues.py lines 18–56): empty input
short-circuits to just the count. `now` is the ambient clock threaded
explicitly. -/
def calculate_issue_metrics (now : ℚ) (issues : List Issue) : IssueOut :=
  if issues.length = 0 then
    { total_issues := 0, responsiveness_score := none, categorization_score := none }
  else
    { total_issues := issues.length,
      responsiveness_score := some (calculate_issue_responsiveness now issues),
      categorization_score := some (analyze_issue_labels issues) }

/-! ## Tests (tests.py) -/

/-- The repository-info fields read by the test calculator; `default_branch`
records whether that key is present. -/
structure RepoInfo where
  default_branch : Bool
  language : Option Str
  has_pytest_ini : Bool
  has_conftest : Bool
  has_jest_config : Bool
  has_mocha_config : Bool
  has_jasmine_config : Bool
deriving DecidableEq

/-- Number of test-framework signals detected by the `check_*_test_frameworks`
helpers (tests.py): pytest for Python, Jest/Mocha/Jasmine for JS/TS; the Java
and C++ checks always return an empty list. -/
def test_framework_signals (ri : RepoInfo) : ℕ :=
  match ri.language with
  | none => 0
  | some lang =>
    if lang = ("Python").data then
      if ri.has_pytest_ini || ri.has_conftest then 1 else 0
    else if lang = ("JavaScript").data ∨ lang = ("TypeScript").data then
      (if ri.has_jest_config then 1 else 0) + (if ri.has_mocha_config then 1 else 0)
        + (if ri.has_jasmine_config then 1 else 0)
    else 0

/-- The `testing_practice_score` of `analyze_test_patterns` (tests.py lines
71–125); note `has_test_directory` is initialised False and never updated in
the source. -/
def analyze_test_patterns (ri : RepoInfo) : ℚ :=
  let has_test_directory := false
  let n := test_framework_signals ri
  if has_test_directory ∧ 0 < n then min ((8 + n : ℕ) : ℚ) 10
  else if has_test_directory ∨ 0 < n then ((5 + n : ℕ) : ℚ)
  else 0

/-- Output keys of `calculate_test_metrics` consumed by the scorer. -/
structure TestOut where
  has_tests : Option Bool
  testing_practice_score : Option ℚ
deriving DecidableEq

/-- Model of `calculate_test_metrics` (tests.py lines 15–41): git data contributes
`has_tests` (test file count > 0), repo info with a `default_branch` key
contributes the practice score; with neither, the returned dict is empty
(`none`). -/
def calculate_test_metrics (git_test_files_count : Option ℕ) (repo_info : RepoInfo) :
    Option TestOut :=
  if git_test_files_count = none ∧ repo_info.default_branch = false then none
  else
    some { has_tests := git_test_files_count.map (fun n => 0 < n),
           testing_practice_score :=
             if repo_info.default_branch then some (analyze_test_patterns repo_info)
             else none }

/-! ## Overall health scorers (src/analyze.py and src/corevsknots/analyze.py) -/

/-- The seven category metric records as seen by the health scorer; a `none`
category models an empty (falsy) dict. -/
structure Metrics where
  contributor : Option ContribOut
  commit : Option CommitOut
  pull_request : Option PROut
  code_review : Option CodeReviewOut
  ci_cd : Option CicdOut
  issue : Option IssueOut
  test : Option TestOut
deriving DecidableEq

/-- The shared contributor sub-score: bus-factor bucket adjusted by the
contributor count (identical in both `calculate_overall_health_score`
versions). -/
def score_contributor_from (bus_factor : ℕ) (contributor_count : ℕ) : ℚ :=
  let base : ℚ :=
    if 10 ≤ bus_factor then 10
    else if 5 ≤ bus_factor then 8
    else if 3 ≤ bus_factor then 6
    else if bus_factor = 2 then 4
    else 2
  if 100 ≤ contributor_count then min 10 (base + 2)
  else if 50 ≤ contributor_count then min 10 (base + 1)
  else if contributor_count ≤ 3 then max 0 (base - 2)
  else base

/-- Contributor sub-score of the simple scorer (src/analyze.py):
`bus_factor` defaulting to 1. -/
def score_contributor_simple (c : Option ContribOut) : ℚ :=
  match c with
  | none => 0
  | some m => score_contributor_from (m.bus_factor.getD 1) m.total_contributors

/-- Contributor sub-score of the fork-aware scorer
(src/corevsknots/analyze.py): when scoring the Knots repository and the
Knots-original bus factor is present, that value is substituted. -/
def score_contributor_fork (repo_name : Option Str) (c : Option ContribOut) : ℚ :=
  match c with
  | none => 0
  | some m =>
    let is_knots_with_original :=
      repo_name = some KNOTS_REPO_IDENTIFIER ∧ m.knots_original_bus_factor.isSome
    let bus : ℕ :=
      if is_knots_with_original then m.knots_original_bus_factor.getD 0
      else m.bus_factor.getD 1
    score_contributor_from bus m.total_contributors

/-- Commit sub-score: frequency bucket base score blended with message
quality (identical in both scorers). -/
def score_commit (c : Option CommitOut) : ℚ :=
  match c with
  | none => 0
  | some m =>
    let base : ℚ :=
      match m.commit_frequency.getD CommitFrequency.inactive with
      | CommitFrequency.very_active => 10
      | CommitFrequency.active => 8
      | CommitFrequency.moderate => 6
      | CommitFrequency.low => 4
      | CommitFrequency.inactive => 2
    base * (7 / 10) + (m.quality_score.getD 0) * (3 / 10)

/-- Pull-request sub-score (identical in both scorers). -/
def score_pull_request (p : Option PROut) : ℚ :=
  match p with
  | none => 0
  | some m => (m.merged_ratio.getD 0) * 10 * (1 / 2) + (m.pr_velocity_score.getD 0) * (1 / 2)

/-- Code-review sub-score (identical in both scorers); note the self-merge
ratio defaults to 1 when absent. -/
def score_code_review (r : Option CodeReviewOut) : ℚ :=
  match r with
  | none => 0
  | some m =>
    (m.review_thoroughness_score.getD 0) * (7 / 10)
      + (1 - m.self_merged_ratio.getD 1) * 10 * (3 / 10)

/-- CI/CD sub-score (identical in both scorers). -/
def score_ci_cd (c : Option CicdOut) : ℚ :=
  match c with
  | none => 0
  | some m => if m.has_ci then 5 + (m.workflow_success_rate.getD 0) * 5 else 0

/-- Issue sub-score (identical in both scorers). -/
def score_issue (i : Option IssueOut) : ℚ :=
  match i with
  | none => 0
  | some m =>
    (m.responsiveness_score.getD 0) * (7 / 10) + (m.categorization_score.getD 0) * (3 / 10)

/-- Test sub-score (identical in both scorers). -/
def score_test (t : Option TestOut) : ℚ :=
  match t with
  | none => 0
  | some m => if m.has_tests.getD false then m.testing_practice_score.getD 0 else 0

/-- Model of `calculate_overall_health_score` from src/analyze.py (the single/simple
comparison flow), with its weight table
{contributor 0.15, commit 0.15, pull_request 0.15, code_review 0.2,
ci_cd 0.15, issue 0.1, test 0.1}. -/
def calculate_overall_health_score (m : Metrics) : ℚ :=
  let total_weight : ℚ := 15/100 + 15/100 + 15/100 + 2/10 + 15/100 + 1/10 + 1/10
  pyRound 1 ((score_contributor_simple m.contributor * (15/100)
    + score_commit m.commit * (15/100)
    + score_pull_request m.pull_request * (15/100)
    + score_code_review m.code_review * (2/10)
    + score_ci_cd m.ci_cd * (15/100)
    + score_issue m.issue * (1/10)
    + score_test m.test * (1/10)) / total_weight)

/-- Model of `calculate_overall_health_score` from src/corevsknots/analyze.py (the
fork-aware flow), with its weight table
{contributor 0.3, commit 0.15, pull_request 0.15, code_review 0.25,
ci_cd 0.05, issue 0.05, test 0.05} and Knots bus-factor substitution. -/
def calculate_overall_health_score_fork (repo_name : Option Str) (m : Metrics) : ℚ :=
  let total_weight : ℚ := 3/10 + 15/100 + 15/100 + 25/100 + 5/100 + 5/100 + 5/100
  pyRound 1 ((score_contributor_fork repo_name m.contributor * (3/10)
    + score_commit m.commit * (15/100)
    + score_pull_request m.pull_request * (15/100)
    + score_code_review m.code_review * (25/100)
    + score_ci_cd m.ci_cd * (5/100)
    + score_issue m.issue * (5/100)
    + score_test m.test * (5/100)) / total_weight)

/-! ## Claim C4: weight table of the simple scorer -/

/-- Claim C4: in the single/simple comparison flow the scorer uses weights
{contributor 0.15, commit 0.15, pull_request 0.15, code_review 0.20,
ci_cd 0.15, issue 0.10, test 0.10} (which sum to 1), and the final score is
the weight-sum-normalised weighted average of the seven sub-scores rounded to
1 decimal place. -/
theorem overall_health_score_simple_weights :
    ((0.15 : ℚ) + 0.15 + 0.15 + 0.20 + 0.15 + 0.10 + 0.10 = 1) ∧
    ∀ m : Metrics,
      calculate_overall_health_score m =
        pyRound 1 ((score_contributor_simple m.contributor * (0.15 : ℚ)
          + score_commit m.commit * 0.15
          + score_pull_request m.pull_request * 0.15
          + score_code_review m.code_review * 0.20
          + score_ci_cd m.ci_cd * 0.15
          + score_issue m.issue * 0.10
          + score_test m.test * 0.10) /
          ((0.15 : ℚ) + 0.15 + 0.15 + 0.20 + 0.15 + 0.10 + 0.10)) := by
  refine ⟨by norm_num, ?_⟩
  intro m
  unfold calculate_overall_health_score
  norm_num

/-! ## Claim C9: the PR velocity score -/

/-- Claim C9: for a PR list with positive average time-to-merge `h`, the PR
velocity score is the piecewise map 10 / 5+(168−h)/144·5 / 1+(720−h)/552·4 /
max(0, 1−(h−720)/720) on the intervals (0,24], (24,168], (168,720], (720,∞),
rounded to 1 decimal place. -/
theorem pr_velocity_score_spec :
    ∀ prs : List PullRequest, prs ≠ [] → 0 < avg_time_to_merge_of prs →
      (calculate_pr_lifecycle_metrics prs).pr_velocity_score =
        pyRound 1
          (if avg_time_to_merge_of prs ≤ 24 then 10
           else if 24 < avg_time_to_merge_of prs ∧ avg_time_to_merge_of prs ≤ 168 then
             5 + (168 - avg_time_to_merge_of prs) / 144 * 5
           else if 168 < avg_time_to_merge_of prs ∧ avg_time_to_merge_of prs ≤ 720 then
             1 + (720 - avg_time_to_merge_of prs) / 552 * 4
           else max 0 (1 - (avg_time_to_merge_of prs - 720) / 720)) := by
  intro prs hne hpos
  have hne0 : avg_time_to_merge_of prs ≠ 0 := ne_of_gt hpos
  rw [calculate_pr_lifecycle_metrics, if_neg hne]
  dsimp only
  rw [if_pos hne0]
  congr 1
  set h := avg_time_to_merge_of prs with hh
  by_cases h24 : h ≤ 24
  · rw [if_pos h24, if_pos h24]
  · by_cases h168 : h ≤ 168
    · rw [if_neg h24, if_pos h168, if_neg h24,
        if_pos (⟨lt_of_not_le h24, h168⟩ : 24 < h ∧ h ≤ 168)]
      norm_num
    · by_cases h720 : h ≤ 720
      · rw [if_neg h24, if_neg h168, if_pos h720, if_neg h24,
          if_neg (fun hc : 24 < h ∧ h ≤ 168 => h168 hc.2),
          if_pos (⟨lt_of_not_le h168, h720⟩ : 168 < h ∧ h ≤ 720)]
        norm_num
      · rw [if_neg h24, if_neg h168, if_neg h720, if_neg h24,
          if_neg (fun hc : 24 < h ∧ h ≤ 168 => h168 hc.2),
          if_neg (fun hc : 168 < h ∧ h ≤ 720 => h720 hc.2)]

/-- A merged PR created at hour 0 and merged at hour 100
(average time-to-merge 100 hours). -/
def velocityPR : PullRequest :=
  { number := 1, state := PRState.closed, author_login := none, merged := true,
    created_at := 0, merged_at := some 100, closed_at := none,
    merged_by_login := none, merge_commit_sha := none }

/-- Witness for C9 at a single PR with average time-to-merge 100 hours. -/
theorem pr_velocity_score_spec_witness :
    (calculate_pr_lifecycle_metrics [velocityPR]).pr_velocity_score =
      pyRound 1
        (if avg_time_to_merge_of [velocityPR] ≤ 24 then 10
         else if 24 < avg_time_to_merge_of [velocityPR] ∧
             avg_time_to_merge_of [velocityPR] ≤ 168 then
           5 + (168 - avg_time_to_merge_of [velocityPR]) / 144 * 5
         else if 168 < avg_time_to_merge_of [velocityPR] ∧
             avg_time_to_merge_of [velocityPR] ≤ 720 then
           1 + (720 - avg_time_to_merge_of [velocityPR]) / 552 * 4
         else max 0 (1 - (avg_time_to_merge_of [velocityPR] - 720) / 720)) :=
  pr_velocity_score_spec [velocityPR] (by simp)
    (by simp [avg_time_to_merge_of, pr_time_to_merge_list, velocityPR])

/-! ## Claim C7: self-merge detection and ratio -/

/-- Claim C7 (amended): with the merge-commit lookup available, a merged PR is
counted self-merged iff the author equals the merger, or the merger is unknown
and the looked-up merge commit's author or committer login equals the PR
author; and the reported `self_merged_ratio` is the self-merge count over the
merged count (0 when none), rounded to 3 decimal places. -/
theorem self_merge_detection_spec :
    ∀ (lookup : Str → Option MergeCommitDetails) (prs : List PullRequest),
      (∀ pr : PullRequest, pr.merged_at.isSome = true →
        (is_self_merge lookup true pr = true ↔
          (∃ a, pr.author_login = some a ∧ pr.merged_by_login = some a) ∨
          (∃ a s cd, pr.author_login = some a ∧ pr.merged_by_login = none ∧
            pr.merge_commit_sha = some s ∧ lookup s = some cd ∧
            (cd.author_login = some a ∨ cd.committer_login = some a)))) ∧
      (calculate_self_merge_metrics lookup true prs).self_merged_ratio =
        pyRound 3
          (if 0 < (prs.filter (fun pr => pr.merged_at.isSome)).length then
            (((prs.filter (fun pr => pr.merged_at.isSome)).filter
                (is_self_merge lookup true)).length : ℚ) /
              ((prs.filter (fun pr => pr.merged_at.isSome)).length : ℚ)
          else 0) := by
  intro lookup prs
  constructor
  · intro pr _
    cases ha : pr.author_login with
    | none => simp [is_self_merge, ha]
    | some a =>
      cases hm : pr.merged_by_login with
      | some m =>
        simp [is_self_merge, ha, hm]
        exact eq_comm
      | none =>
        cases hs : pr.merge_commit_sha with
        | none => simp [is_self_merge, ha, hm, hs]
        | some s =>
          cases hl : lookup s with
          | none => simp [is_self_merge, ha, hm, hs, hl]
          | some cd => simp [is_self_merge, ha, hm, hs, hl]
  · by_cases hprs : prs = []
    · subst hprs
      simp [calculate_self_merge_metrics]
      norm_num [pyRound, pyRoundInt]
    · rw [calculate_self_merge_metrics, if_neg hprs]

/-- PR merged by its own author. -/
def smPrA : PullRequest :=
  { number := 1, state := PRState.closed, author_login := some (("a").data),
    merged := true, created_at := 0, merged_at := some 1, closed_at := none,
    merged_by_login := some (("a").data), merge_commit_sha := none }

/-- PR merged by a different user. -/
def smPrB : PullRequest :=
  { number := 2, state := PRState.closed, author_login := some (("b").data),
    merged := true, created_at := 0, merged_at := some 1, closed_at := none,
    merged_by_login := some (("c").data), merge_commit_sha := none }

/-- Another PR merged by a different user. -/
def smPrC : PullRequest :=
  { number := 3, state := PRState.closed, author_login := some (("d").data),
    merged := true, created_at := 0, merged_at := some 1, closed_at := none,
    merged_by_login := some (("c").data), merge_commit_sha := none }

/-- Counterexample for C7: with 3 merged PRs of which exactly 1 is
self-merged, the reported ratio is 0.333 — the exact quotient 1/3 rounded to 3
decimals, not 1/3 itself as the claim states. -/
theorem self_merge_ratio_counterexample :
    (calculate_self_merge_metrics (fun _ => none) true [smPrA, smPrB, smPrC]).self_merged_count
        = 1 ∧
    (calculate_self_merge_metrics (fun _ => none) true
        [smPrA, smPrB, smPrC]).self_merged_prs_analyzed = 3 ∧
    (calculate_self_merge_metrics (fun _ => none) true [smPrA, smPrB, smPrC]).self_merged_ratio
        = 333 / 1000 ∧
    (calculate_self_merge_metrics (fun _ => none) true [smPrA, smPrB, smPrC]).self_merged_ratio
        ≠ 1 / 3 := by
  have h1 : (calculate_self_merge_metrics (fun _ => none) true
      [smPrA, smPrB, smPrC]).self_merged_count = 1 := by
    simp [calculate_self_merge_metrics, smPrA, smPrB, smPrC, is_self_merge]
  have h2 : (calculate_self_merge_metrics (fun _ => none) true
      [smPrA, smPrB, smPrC]).self_merged_prs_analyzed = 3 := by
    simp [calculate_self_merge_metrics, smPrA, smPrB, smPrC]
  have h3 : (calculate_self_merge_metrics (fun _ => none) true
      [smPrA, smPrB, smPrC]).self_merged_ratio = 333 / 1000 := by
    simp [calculate_self_merge_metrics, smPrA, smPrB, smPrC, is_self_merge]
    norm_num [pyRound, pyRoundInt]
  exact ⟨h1, h2, h3, by rw [h3]; norm_num⟩

/-- Witness for C7: the detection iff instantiated at the self-merged PR
`smPrA`. -/
theorem self_merge_detection_spec_witness :
    is_self_merge (fun _ => none) true smPrA = true ↔
      (∃ a, smPrA.author_login = some a ∧ smPrA.merged_by_login = some a) ∨
      (∃ a s cd, smPrA.author_login = some a ∧ smPrA.merged_by_login = none ∧
        smPrA.merge_commit_sha = some s ∧ (fun _ => none : Str → Option MergeCommitDetails) s
          = some cd ∧
        (cd.author_login = some a ∨ cd.committer_login = some a)) :=
  (self_merge_detection_spec (fun _ => none) [smPrA]).1 smPrA (by simp [smPrA])

/-! ## Claim C5: the empty repository -/

/-- Repository info of an empty repository: no keys, no language, no test
framework signals. -/
def emptyRepoInfo : RepoInfo :=
  { default_branch := false, language := none, has_pytest_ini := false,
    has_conftest := false, has_jest_config := false, has_mocha_config := false,
    has_jasmine_config := false }

/-- The metrics produced by the calculators on an empty repository: zero
contributors, commits, PRs, issues, workflow runs; no git data; no repo-info
keys. -/
def empty_repo_metrics : Metrics :=
  { contributor := some (calculate_contributor_metrics [] [] none none),
    commit := some (calculate_commit_metrics [] none none),
    pull_request := some (calculate_pr_metrics []),
    code_review := calculate_code_review_metrics [] [] [] false (fun _ => none),
    ci_cd := some (calculate_cicd_metrics [] none),
    issue := some (calculate_issue_metrics 0 []),
    test := calculate_test_metrics none emptyRepoInfo }

/-- Counterexample for C5: on the empty repository the overall health score is
not 0 (the commit category scores 1.4 from the "inactive" base score). -/
theorem empty_repo_overall_score_not_zero :
    calculate_overall_health_score_fork none empty_repo_metrics ≠ 0 := by
  have h : calculate_overall_health_score_fork none empty_repo_metrics = 2 / 10 := by
    simp [calculate_overall_health_score_fork, empty_repo_metrics,
      calculate_contributor_metrics, calculate_commit_metrics, calculate_pr_metrics,
      calculate_code_review_metrics, calculate_cicd_metrics, calculate_issue_metrics,
      calculate_test_metrics, emptyRepoInfo, has_ci_configs,
      score_contributor_fork, score_contributor_from, score_commit, score_pull_request,
      score_code_review, score_ci_cd, score_issue, score_test, KNOTS_REPO_IDENTIFIER,
      CORE_REPO_IDENTIFIER]
    norm_num [pyRound, pyRoundInt]
  rw [h]
  norm_num

/-- Claim C5 (amended): on the empty repository every category sub-score is 0
except the commit category, which scores 1.4 (frequency "inactive" base 2
times 0.7), so the overall fork-aware health score is 0.2, not 0. -/
theorem empty_repo_scores_amended :
    score_contributor_fork none empty_repo_metrics.contributor = 0 ∧
    score_commit empty_repo_metrics.commit = 7 / 5 ∧
    score_pull_request empty_repo_metrics.pull_request = 0 ∧
    score_code_review empty_repo_metrics.code_review = 0 ∧
    score_ci_cd empty_repo_metrics.ci_cd = 0 ∧
    score_issue empty_repo_metrics.issue = 0 ∧
    score_test empty_repo_metrics.test = 0 ∧
    calculate_overall_health_score_fork none empty_repo_metrics = 2 / 10 := by
  refine ⟨?_, ?_, ?_, ?_, ?_, ?_, ?_, ?_⟩ <;>
    · simp [calculate_overall_health_score_fork, empty_repo_metrics,
        calculate_contributor_metrics, calculate_commit_metrics, calculate_pr_metrics,
        calculate_code_review_metrics, calculate_cicd_metrics, calculate_issue_metrics,
        calculate_test_metrics, emptyRepoInfo, has_ci_configs,
        score_contributor_fork, score_contributor_from, score_commit, score_pull_request,
        score_code_review, score_ci_cd, score_issue, score_test, KNOTS_REPO_IDENTIFIER,
        CORE_REPO_IDENTIFIER]
      try norm_num [pyRound, pyRoundInt]

/-! ## Claim C6: the single-contributor Gini override -/

/-- A single original commit by the sole contributor. -/
def c6Commit : Commit :=
  { author_login := some (("alice").data), author_name := none, author_email := none,
    sha := some (("s1").data), message := ("fix bug").data, committer_day := some 0 }

/-- Counterexample for C6: a non-Knots analysis with exactly one contributor
and non-empty commit data reports `contributor_gini = 0`, not the claimed 1.0
override — the earlier commits-based Gini survives because the override branch
is skipped when `contributor_gini` is already set. -/
theorem single_contributor_gini_counterexample :
    (calculate_contributor_metrics [((("alice").data), 5)] [c6Commit] none
        none).total_contributors = 1 ∧
    (calculate_contributor_metrics [((("alice").data), 5)] [c6Commit] none
        none).contributor_gini = some 0 := by
  have hmsg : is_core_merge_commit (("fix bug").data) = false := by decide
  constructor
  · simp [calculate_contributor_metrics]
  · simp [calculate_contributor_metrics, c6Commit, hmsg, commitAuthor, counterAdd,
      sortDescBySnd, List.insertionSort, List.orderedInsert, KNOTS_REPO_IDENTIFIER]
    norm_num [calculate_gini_coefficient, weightedPositionSum, List.insertionSort,
      List.orderedInsert]

/-- Claim C6 (amended): the caller-level convention `Gini = 1.0` for a
single-contributor distribution applies when the repository is Knots or when
no commit data is present; for a non-Knots repository with commit data the
commits-based Gini (already stored) is reported instead. -/
theorem single_contributor_gini_amended :
    ∀ (contributors : List (Str × ℕ)) (commits : List Commit) (repo_name : Option Str)
      (shas : Option (List Str)),
      contributors.length = 1 →
      (repo_name = some KNOTS_REPO_IDENTIFIER ∨ commits = []) →
      (calculate_contributor_metrics contributors commits repo_name
        shas).contributor_gini = some 1 := by
  intro cs commits repo_name shas h1 h2
  have h0 : ¬(cs.length = 0) := by omega
  have hlen : (sortDescBySnd cs).length = 1 := by
    rw [sortDescBySnd, List.length_insertionSort]
    exact h1
  rcases h2 with hk | hc
  · simp [calculate_contributor_metrics, h0, hlen, hk]
  · subst hc
    simp [calculate_contributor_metrics, h0, hlen]

/-- Witness for C6 at a single contributor with no commit data. -/
theorem single_contributor_gini_amended_witness :
    (calculate_contributor_metrics [((("alice").data), 5)] [] none
      none).contributor_gini = some 1 :=
  single_contributor_gini_amended [((("alice").data), 5)] [] none none (by decide)
    (Or.inr rfl)

/-! ## Claim C8: range, rounding and determinism of the overall score -/

/-- An optional rational field lies in `[lo, hi]` when present. -/
def OptRange (lo hi : ℚ) : Option ℚ → Prop
  | none => True
  | some q => lo ≤ q ∧ q ≤ hi

/-- Documented range of the commit category fields. -/
def CommitInRange : Option CommitOut → Prop
  | none => True
  | some m => OptRange 0 10 m.quality_score

/-- Documented range of the pull-request category fields. -/
def PRInRange : Option PROut → Prop
  | none => True
  | some m => OptRange 0 1 m.merged_ratio ∧ OptRange 0 10 m.pr_velocity_score

/-- Documented range of the code-review category fields. -/
def CRInRange : Option CodeReviewOut → Prop
  | none => True
  | some m => OptRange 0 10 m.review_thoroughness_score ∧ OptRange 0 1 m.self_merged_ratio

/-- Documented range of the CI/CD category fields. -/
def CicdInRange : Option CicdOut → Prop
  | none => True
  | some m => OptRange 0 1 m.workflow_success_rate

/-- Documented range of the issue category fields. -/
def IssueInRange : Option IssueOut → Prop
  | none => True
  | some m => OptRange 0 10 m.responsiveness_score ∧ OptRange 0 10 m.categorization_score

/-- Documented range of the test category fields. -/
def TestInRange : Option TestOut → Prop
  | none => True
  | some m => OptRange 0 10 m.testing_practice_score

/-- All documented field ranges of a metrics record (bus factor and
contributor counts are naturals, hence non-negative by type). -/
def MetricsInRange (m : Metrics) : Prop :=
  CommitInRange m.commit ∧ PRInRange m.pull_request ∧ CRInRange m.code_review ∧
    CicdInRange m.ci_cd ∧ IssueInRange m.issue ∧ TestInRange m.test

theorem optRange_getD {lo hi : ℚ} {o : Option ℚ} (h : OptRange lo hi o) {d : ℚ}
    (hd1 : lo ≤ d) (hd2 : d ≤ hi) : lo ≤ o.getD d ∧ o.getD d ≤ hi := by
  cases o with
  | none => simpa using ⟨hd1, hd2⟩
  | some q => simpa using h

theorem score_contributor_from_bounds (b c : ℕ) :
    0 ≤ score_contributor_from b c ∧ score_contributor_from b c ≤ 10 := by
  unfold score_contributor_from
  dsimp only
  split_ifs <;> norm_num

theorem score_contributor_fork_bounds (repo_name : Option Str) (c : Option ContribOut) :
    0 ≤ score_contributor_fork repo_name c ∧ score_contributor_fork repo_name c ≤ 10 := by
  cases c with
  | none => norm_num [score_contributor_fork]
  | some m =>
    unfold score_contributor_fork
    exact score_contributor_from_bounds _ _

theorem score_commit_bounds {c : Option CommitOut} (h : CommitInRange c) :
    0 ≤ score_commit c ∧ score_commit c ≤ 10 := by
  cases c with
  | none => norm_num [score_commit]
  | some m =>
    have hq := optRange_getD (h : OptRange 0 10 m.quality_score) (le_refl 0) (by norm_num)
    unfold score_commit
    dsimp only
    cases m.commit_frequency.getD CommitFrequency.inactive <;>
      exact ⟨by linarith [hq.1, hq.2], by linarith [hq.1, hq.2]⟩

theorem score_pull_request_bounds {p : Option PROut} (h : PRInRange p) :
    0 ≤ score_pull_request p ∧ score_pull_request p ≤ 10 := by
  cases p with
  | none => norm_num [score_pull_request]
  | some m =>
    obtain ⟨hr, hv⟩ := h
    have h1 := optRange_getD hr (le_refl 0) (by norm_num)
    have h2 := optRange_getD hv (le_refl 0) (by norm_num)
    unfold score_pull_request
    exact ⟨by nlinarith [h1.1, h1.2, h2.1, h2.2], by nlinarith [h1.1, h1.2, h2.1, h2.2]⟩

theorem score_code_review_bounds {r : Option CodeReviewOut} (h : CRInRange r) :
    0 ≤ score_code_review r ∧ score_code_review r ≤ 10 := by
  cases r with
  | none => norm_num [score_code_review]
  | some m =>
    obtain ⟨ht, hs⟩ := h
    have h1 := optRange_getD ht (le_refl 0) (by norm_num)
    have h2 := optRange_getD hs (by norm_num : (0 : ℚ) ≤ 1) (le_refl 1)
    unfold score_code_review
    dsimp only
    exact ⟨by nlinarith [h1.1, h1.2, h2.1, h2.2], by nlinarith [h1.1, h1.2, h2.1, h2.2]⟩

theorem score_ci_cd_bounds {c : Option CicdOut} (h : CicdInRange c) :
    0 ≤ score_ci_cd c ∧ score_ci_cd c ≤ 10 := by
  cases c with
  | none => norm_num [score_ci_cd]
  | some m =>
    have h1 := optRange_getD (h : OptRange 0 1 m.workflow_success_rate) (le_refl 0)
      (by norm_num)
    unfold score_ci_cd
    dsimp only
    split_ifs
    · exact ⟨by linarith [h1.1, h1.2], by linarith [h1.1, h1.2]⟩
    · norm_num

theorem score_issue_bounds {i : Option IssueOut} (h : IssueInRange i) :
    0 ≤ score_issue i ∧ score_issue i ≤ 10 := by
  cases i with
  | none => norm_num [score_issue]
  | some m =>
    obtain ⟨h1, h2⟩ := h
    have hr := optRange_getD h1 (le_refl 0) (by norm_num)
    have hc := optRange_getD h2 (le_refl 0) (by norm_num)
    unfold score_issue
    exact ⟨by linarith [hr.1, hr.2, hc.1, hc.2], by linarith [hr.1, hr.2, hc.1, hc.2]⟩

theorem score_test_bounds {t : Option TestOut} (h : TestInRange t) :
    0 ≤ score_test t ∧ score_test t ≤ 10 := by
  cases t with
  | none => norm_num [score_test]
  | some m =>
    have h1 := optRange_getD (h : OptRange 0 10 m.testing_practice_score) (le_refl 0)
      (by norm_num)
    unfold score_test
    dsimp only
    split_ifs
    · exact h1
    · norm_num

theorem pyRoundInt_nonneg {y : ℚ} (h : 0 ≤ y) : 0 ≤ pyRoundInt y := by
  have hf : (0 : ℤ) ≤ ⌊y⌋ := Int.floor_nonneg.2 h
  unfold pyRoundInt
  dsimp only
  split_ifs <;> omega

theorem pyRoundInt_le_of_le {y : ℚ} {B : ℤ} (h : y ≤ (B : ℚ)) : pyRoundInt y ≤ B := by
  have hfl : ⌊y⌋ ≤ B := by
    have := Int.floor_le_floor h
    simpa using this
  have hfq : ((⌊y⌋ : ℤ) : ℚ) ≤ y := Int.floor_le y
  unfold pyRoundInt
  dsimp only
  split_ifs with hA hB hC
  · exact hfl
  · have hlt : ((⌊y⌋ : ℤ) : ℚ) < (B : ℚ) := by linarith
    have : ⌊y⌋ < B := by exact_mod_cast hlt
    omega
  · exact hfl
  · have htie : y - ((⌊y⌋ : ℤ) : ℚ) = 1 / 2 := le_antisymm (not_lt.1 hB) (not_lt.1 hA)
    have hlt : ((⌊y⌋ : ℤ) : ℚ) < (B : ℚ) := by linarith
    have : ⌊y⌋ < B := by exact_mod_cast hlt
    omega

theorem pyRound1_props {y : ℚ} (h0 : 0 ≤ y) (h10 : y ≤ 10) :
    0 ≤ pyRound 1 y ∧ pyRound 1 y ≤ 10 ∧ ∃ k : ℤ, pyRound 1 y = (k : ℚ) / 10 := by
  have h1 : 0 ≤ pyRoundInt (y * 10) := pyRoundInt_nonneg (by linarith)
  have h2 : pyRoundInt (y * 10) ≤ (100 : ℤ) := pyRoundInt_le_of_le (by push_cast; linarith)
  have h1q : (0 : ℚ) ≤ ((pyRoundInt (y * 10) : ℤ) : ℚ) := by exact_mod_cast h1
  have h2q : ((pyRoundInt (y * 10) : ℤ) : ℚ) ≤ 100 := by exact_mod_cast h2
  have hEq : pyRound 1 y = ((pyRoundInt (y * 10) : ℤ) : ℚ) / 10 := by
    unfold pyRound
    norm_num
  rw [hEq]
  refine ⟨by positivity, ?_, ⟨pyRoundInt (y * 10), rfl⟩⟩
  rw [div_le_iff₀ (by norm_num : (0 : ℚ) < 10)]
  linarith

/-- Claim C8: for every metrics record whose fields lie in their documented
ranges, the fork-aware overall health scorer returns a value in `[0, 10]` that
is an integer number of tenths (1 decimal place), and equal inputs give equal
scores. -/
theorem overall_health_score_bounds :
    ∀ (repo_name : Option Str) (m m' : Metrics), MetricsInRange m →
      0 ≤ calculate_overall_health_score_fork repo_name m ∧
      calculate_overall_health_score_fork repo_name m ≤ 10 ∧
      (∃ k : ℤ, calculate_overall_health_score_fork repo_name m = (k : ℚ) / 10) ∧
      (m = m' → calculate_overall_health_score_fork repo_name m =
        calculate_overall_health_score_fork repo_name m') := by
  intro repo_name m m' h
  obtain ⟨h1, h2, h3, h4, h5, h6⟩ := h
  have b1 := score_contributor_fork_bounds repo_name m.contributor
  have b2 := score_commit_bounds h1
  have b3 := score_pull_request_bounds h2
  have b4 := score_code_review_bounds h3
  have b5 := score_ci_cd_bounds h4
  have b6 := score_issue_bounds h5
  have b7 := score_test_bounds h6
  have hW : ((3 : ℚ)/10 + 15/100 + 15/100 + 25/100 + 5/100 + 5/100 + 5/100) = 1 := by
    norm_num
  have harg0 : 0 ≤ (score_contributor_fork repo_name m.contributor * (3/10)
      + score_commit m.commit * (15/100)
      + score_pull_request m.pull_request * (15/100)
      + score_code_review m.code_review * (25/100)
      + score_ci_cd m.ci_cd * (5/100)
      + score_issue m.issue * (5/100)
      + score_test m.test * (5/100)) /
        ((3 : ℚ)/10 + 15/100 + 15/100 + 25/100 + 5/100 + 5/100 + 5/100) := by
    rw [hW, div_one]
    linarith [b1.1, b2.1, b3.1, b4.1, b5.1, b6.1, b7.1]
  have harg10 : (score_contributor_fork repo_name m.contributor * (3/10)
      + score_commit m.commit * (15/100)
      + score_pull_request m.pull_request * (15/100)
      + score_code_review m.code_review * (25/100)
      + score_ci_cd m.ci_cd * (5/100)
      + score_issue m.issue * (5/100)
      + score_test m.test * (5/100)) /
        ((3 : ℚ)/10 + 15/100 + 15/100 + 25/100 + 5/100 + 5/100 + 5/100) ≤ 10 := by
    rw [hW, div_one]
    linarith [b1.2, b2.2, b3.2, b4.2, b5.2, b6.2, b7.2]
  have hp := pyRound1_props harg0 harg10
  refine ⟨hp.1, hp.2.1, hp.2.2, fun he => by rw [he]⟩

/-- A metrics record with every category dict empty. -/
def allNoneMetrics : Metrics :=
  { contributor := none, commit := none, pull_request := none, code_review := none,
    ci_cd := none, issue := none, test := none }

/-- Witness for C8 at the all-empty metrics record. -/
theorem overall_health_score_bounds_witness :
    0 ≤ calculate_overall_health_score_fork none allNoneMetrics ∧
    calculate_overall_health_score_fork none allNoneMetrics ≤ 10 ∧
    (∃ k : ℤ, calculate_overall_health_score_fork none allNoneMetrics = (k : ℚ) / 10) ∧
    (allNoneMetrics = allNoneMetrics →
      calculate_overall_health_score_fork none allNoneMetrics =
        calculate_overall_health_score_fork none allNoneMetrics) :=
  overall_health_score_bounds none allNoneMetrics allNoneMetrics
    (by simp [MetricsInRange, CommitInRange, PRInRange, CRInRange, CicdInRange,
      IssueInRange, TestInRange, allNoneMetrics])

end CoreVsKnots
